/-
Verification of the connection-establishment layer of the vscode-kotlin
extension (src/languageSetup.ts), as a shallow embedding in Lean 4.

The embedding follows the TypeScript source: JavaScript promises become an
explicit settle-once state, Node event emitters become listener lists keyed
by event-name strings, and the single-threaded event loop becomes a fold of
a step function over a list of externally delivered events.
-/
import Mathlib

namespace VscodeKotlin

/-! ## JavaScript promise semantics

A promise settles at most once: `resolve` and `reject` are no-ops on an
already settled promise. -/

/-- State of a JavaScript promise over values of type `α`. -/
inductive PromiseState (α : Type) where
  | pending
  | resolved (v : α)
  | rejected (e : String)
deriving DecidableEq, Repr

/-- Calling `resolve v`: settles the promise only if it is still pending. -/
def PromiseState.resolve (p : PromiseState α) (v : α) : PromiseState α :=
  match p with
  | .pending => .resolved v
  | q => q

/-- Calling `reject e`: settles the promise only if it is still pending. -/
def PromiseState.reject (p : PromiseState α) (e : String) : PromiseState α :=
  match p with
  | .pending => .rejected e
  | q => q

theorem PromiseState.resolve_of_settled (p : PromiseState α) (v : α)
    (h : p ≠ .pending) : p.resolve v = p := by
  cases p <;> simp_all [PromiseState.resolve]

theorem PromiseState.reject_of_settled (p : PromiseState α) (e : String)
    (h : p ≠ .pending) : p.reject e = p := by
  cases p <;> simp_all [PromiseState.reject]

/-- The `StreamInfo` shape from vscode-languageclient: the duplex channel handed to the
protocol client. Sockets are identified by numbers. -/
structure StreamInfo where
  reader : Nat
  writer : Nat
deriving DecidableEq, Repr

/-! ## Transport selector (languageSetup.ts lines 81-90)

The TypeScript declaration

  enum TransportLayer { STDIO = "stdio", TCP = "tcp",
                        TCP_RANDOM = "tcp-random", TCP_ATTACH = "tcp-attach" }

compiles (string enum) to a runtime object whose keys are the member NAMES
and whose values are the member strings; string enums get no reverse
mapping, so indexing the object with a member VALUE such as "tcp" yields
undefined. -/

/-- The key/value pairs of the compiled `TransportLayer` enum object. -/
def TransportLayer.members : List (String × String) :=
  [("STDIO", "stdio"), ("TCP", "tcp"),
   ("TCP_RANDOM", "tcp-random"), ("TCP_ATTACH", "tcp-attach")]

/-- Lookup `TransportLayer[x]` for a possibly-undefined string `x`: property lookup
on the compiled enum object (member names are the only keys). -/
def TransportLayer.index (x : Option String) : Option String :=
  x.bind (fun k => (TransportLayer.members.find? (fun p => p.1 == k)).map Prod.snd)

/-- The transport-selection prelude of `activateLanguageServer`
(lines 81-90): reads `languageServer.transport`, tests
`TransportLayer[transportLayer] == undefined`, and on that test substitutes
"stdio" and calls `config.update`. Returns the resulting `transportLayer`
value together with the list of configuration writes performed. -/
def selectTransport (configured : Option String) : String × List (String × String) :=
  if (TransportLayer.index configured).isNone then
    ("stdio", [("languageServer.transport", "stdio")])
  else
    (configured.getD "", [])

/-! ## TCP launch connector (languageSetup.ts lines 277-307, `tcp_launch`)

One invocation of `tcp_launch` creates a `net.Server` with a connection
callback that closes the server and resolves the returned promise, calls
`server.listen(tcpPort, callback)` where the callback reads the actually
bound port and spawns the server executable with it, and installs an error
handler that rejects the promise.  The surrounding event loop is modelled
as a list of events delivered to the closure. -/

/-- The inputs fixed at `tcp_launch` invocation time, plus the port the
operating system would assign when the requested port is 0 or null. -/
structure TcpLaunchConfig where
  startScriptPath : String
  /-- The `tcpPort` argument: `none` models the `null` passed in tcp-random mode. -/
  requestedPort : Option Nat
  /-- The ephemeral port the OS picks when asked to bind port 0. -/
  osAssignedPort : Nat
deriving DecidableEq, Repr

/-- The port `server.address().port` reports once listening: the requested
port when nonzero, otherwise the OS-assigned one. -/
def TcpLaunchConfig.boundPort (cfg : TcpLaunchConfig) : Nat :=
  match cfg.requestedPort with
  | some p => if p == 0 then cfg.osAssignedPort else p
  | none => cfg.osAssignedPort

/-- Events the event loop can deliver to one `tcp_launch` closure. -/
inductive TcpEvent where
  /-- The listen callback: the server is bound and ready to accept. -/
  | listenReady
  /-- An inbound connection, carrying its socket. -/
  | connection (sock : Nat)
  /-- An `error` event on the server. -/
  | error (e : String)
deriving DecidableEq, Repr

/-- Observable state of one `tcp_launch` invocation. -/
structure TcpLaunchState where
  /-- The server is currently accepting connections. -/
  listening : Bool
  /-- The listen callback has fired (it fires at most once). -/
  listenFired : Bool
  /-- True once `server.close()` has been called. -/
  serverClosed : Bool
  promise : PromiseState StreamInfo
  /-- Processes spawned so far, as (command, argument list). -/
  spawns : List (String × List String)
  /-- Sockets whose connection the server has accepted, in order. -/
  accepted : List Nat
deriving DecidableEq, Repr

def TcpLaunchState.init : TcpLaunchState :=
  { listening := false, listenFired := false, serverClosed := false,
    promise := .pending, spawns := [], accepted := [] }

/-- One event delivered to the `tcp_launch` closure.
* `listenReady` runs the `server.listen` callback: it reads the bound port
  and spawns `startScriptPath` with `["--tcpClientPort", port]`.
* `connection sock` runs the `net.createServer` callback when the server is
  still accepting: it calls `server.close()` and resolves the promise with
  the socket as both reader and writer.  A connection attempt against a
  closed server is refused and changes nothing.
* `error e` runs the error handler, which calls `reject e`. -/
def tcpLaunchStep (cfg : TcpLaunchConfig) (st : TcpLaunchState) : TcpEvent → TcpLaunchState
  | .listenReady =>
      if st.listenFired then st
      else
        { st with
          listening := true, listenFired := true,
          spawns := st.spawns ++
            [(cfg.startScriptPath, ["--tcpClientPort", toString cfg.boundPort])] }
  | .connection sock =>
      if st.listening && !st.serverClosed then
        { st with
          listening := false, serverClosed := true,
          accepted := st.accepted ++ [sock],
          promise := st.promise.resolve { reader := sock, writer := sock } }
      else st
  | .error e => { st with promise := st.promise.reject e }

/-- Run one `tcp_launch` invocation against a list of delivered events. -/
def tcpLaunchRun (cfg : TcpLaunchConfig) (events : List TcpEvent) : TcpLaunchState :=
  events.foldl (tcpLaunchStep cfg) .init

/-- Once settled, the promise of a `tcp_launch` invocation never changes
again, whatever events keep arriving. -/
theorem tcpLaunch_promise_stable (cfg : TcpLaunchConfig) (st : TcpLaunchState)
    (events : List TcpEvent) (h : st.promise ≠ .pending) :
    (events.foldl (tcpLaunchStep cfg) st).promise = st.promise := by
  induction events generalizing st with
  | nil => rfl
  | cons ev rest ih =>
    have hstep : (tcpLaunchStep cfg st ev).promise = st.promise := by
      cases ev with
      | listenReady => simp only [tcpLaunchStep]; split <;> rfl
      | connection sock =>
        simp only [tcpLaunchStep]
        split
        · exact PromiseState.resolve_of_settled _ _ h
        · rfl
      | error e => exact PromiseState.reject_of_settled _ _ h
    rw [List.foldl_cons, ih _ (by rw [hstep]; exact h), hstep]

/-- Once `server.close()` has run, the server stays closed and the accepted
list is frozen. -/
theorem tcpLaunch_closed_stable (cfg : TcpLaunchConfig) (st : TcpLaunchState)
    (events : List TcpEvent) (h : st.serverClosed = true) :
    (events.foldl (tcpLaunchStep cfg) st).serverClosed = true ∧
    (events.foldl (tcpLaunchStep cfg) st).accepted = st.accepted := by
  induction events generalizing st with
  | nil => exact ⟨h, rfl⟩
  | cons ev rest ih =>
    have hstep : (tcpLaunchStep cfg st ev).serverClosed = true ∧
        (tcpLaunchStep cfg st ev).accepted = st.accepted := by
      cases ev with
      | listenReady => simp only [tcpLaunchStep]; split <;> simp [h]
      | connection sock => simp [tcpLaunchStep, h]
      | error e => exact ⟨h, rfl⟩
    rw [List.foldl_cons]
    rcases ih (tcpLaunchStep cfg st ev) hstep.1 with ⟨h1, h2⟩
    exact ⟨h1, h2.trans hstep.2⟩

/-- Invariant of every reachable `tcp_launch` state: while the server is
accepting, nothing has been accepted yet and the server is not closed;
before the listen callback has fired nothing at all has happened; the
spawned processes are exactly one spawn with the bound port, present as
soon as (and only when) the listen callback has fired. -/
def TcpLaunchState.Inv (cfg : TcpLaunchConfig) (st : TcpLaunchState) : Prop :=
  (st.listening = true → st.accepted = [] ∧ st.serverClosed = false) ∧
  (st.listenFired = false →
    st.listening = false ∧ st.accepted = [] ∧ st.serverClosed = false) ∧
  st.spawns = (if st.listenFired then
    [(cfg.startScriptPath, ["--tcpClientPort", toString cfg.boundPort])] else [])

theorem tcpLaunch_inv (cfg : TcpLaunchConfig) (events : List TcpEvent) :
    (tcpLaunchRun cfg events).Inv cfg := by
  have main : ∀ (evs : List TcpEvent) (st : TcpLaunchState), st.Inv cfg →
      (evs.foldl (tcpLaunchStep cfg) st).Inv cfg := by
    intro evs
    induction evs with
    | nil => intro st h; exact h
    | cons ev rest ih =>
      intro st h
      rw [List.foldl_cons]
      apply ih
      rcases h with ⟨h1, h2, h3⟩
      cases ev with
      | listenReady =>
        simp only [tcpLaunchStep]
        split
        · exact ⟨h1, h2, h3⟩
        · rename_i hnf
          rw [Bool.not_eq_true] at hnf
          rcases h2 hnf with ⟨_, hacc, hcl⟩
          rw [hnf] at h3
          simp only [if_neg Bool.false_ne_true] at h3
          exact ⟨fun _ => ⟨hacc, hcl⟩, by simp, by simp [h3]⟩
      | connection sock =>
        simp only [tcpLaunchStep]
        split
        · rename_i hg
          simp only [Bool.and_eq_true, Bool.not_eq_true'] at hg
          rcases h1 hg.1 with ⟨hacc, _⟩
          refine ⟨by simp, ?_, h3⟩
          intro hf
          exact absurd (h2 hf).1 (by simp [hg.1])
        · exact ⟨h1, h2, h3⟩
      | error e => exact ⟨h1, h2, h3⟩
  exact main events .init ⟨fun _ => ⟨rfl, rfl⟩, fun _ => ⟨rfl, rfl, rfl⟩, rfl⟩

/-- Claim C3: for every `tcp_launch` invocation, on the first inbound
connection (first means the server is still accepting and the promise still
pending) the listener is closed, the promise resolves with that connection's
socket as both reader and writer, and however many further connection
attempts follow, none is accepted: the accepted list stays `[s]` and the
promise stays resolved with `s`. -/
theorem C3_tcp_launch_accepts_at_most_one_connection (cfg : TcpLaunchConfig)
    (pre post : List TcpEvent) (s : Nat)
    (hl : (tcpLaunchRun cfg pre).listening = true)
    (hp : (tcpLaunchRun cfg pre).promise = .pending) :
    (tcpLaunchRun cfg (pre ++ TcpEvent.connection s :: post)).promise =
      .resolved { reader := s, writer := s } ∧
    (tcpLaunchRun cfg (pre ++ TcpEvent.connection s :: post)).serverClosed = true ∧
    (tcpLaunchRun cfg (pre ++ TcpEvent.connection s :: post)).accepted = [s] := by
  rcases tcpLaunch_inv cfg pre with ⟨h1, _, _⟩
  rcases h1 hl with ⟨hacc, hcl⟩
  have hrun : tcpLaunchRun cfg (pre ++ TcpEvent.connection s :: post) =
      List.foldl (tcpLaunchStep cfg)
        (tcpLaunchStep cfg (tcpLaunchRun cfg pre) (.connection s)) post := by
    simp [tcpLaunchRun, List.foldl_append]
  have hstep : tcpLaunchStep cfg (tcpLaunchRun cfg pre) (.connection s) =
      { tcpLaunchRun cfg pre with
        listening := false, serverClosed := true,
        accepted := [s],
        promise := .resolved { reader := s, writer := s } } := by
    simp [tcpLaunchStep, hl, hcl, hacc, hp, PromiseState.resolve]
  rw [hrun, hstep]
  refine ⟨?_, ?_⟩
  · rw [tcpLaunch_promise_stable]; simp
  · simpa using tcpLaunch_closed_stable cfg _ post rfl

theorem C3_witness :
    (tcpLaunchRun
      { startScriptPath := "kotlin-language-server", requestedPort := some 4000,
        osAssignedPort := 5007 }
      ([TcpEvent.listenReady] ++ TcpEvent.connection 3 :: [TcpEvent.connection 7])).promise =
      .resolved { reader := 3, writer := 3 } ∧
    (tcpLaunchRun
      { startScriptPath := "kotlin-language-server", requestedPort := some 4000,
        osAssignedPort := 5007 }
      ([TcpEvent.listenReady] ++ TcpEvent.connection 3 :: [TcpEvent.connection 7])).serverClosed = true ∧
    (tcpLaunchRun
      { startScriptPath := "kotlin-language-server", requestedPort := some 4000,
        osAssignedPort := 5007 }
      ([TcpEvent.listenReady] ++ TcpEvent.connection 3 :: [TcpEvent.connection 7])).accepted = [3] :=
  C3_tcp_launch_accepts_at_most_one_connection
    { startScriptPath := "kotlin-language-server", requestedPort := some 4000,
      osAssignedPort := 5007 }
    [TcpEvent.listenReady] [TcpEvent.connection 7] 3 (by decide) (by decide)

/-- Claim C4: in every `tcp_launch` invocation the spawn happens in the
listen callback — the spawn list is nonempty exactly when the listen-ready
callback has fired, so the process is spawned only once the listener is
ready — and the single spawn passes exactly `--tcpClientPort <bound port>`,
where the bound port is the requested one when nonzero and the OS-assigned
one when the requested port was 0 or null (hence never 0, the requested
value, in that case). -/
theorem C4_spawn_after_listen_with_actual_port (cfg : TcpLaunchConfig)
    (events : List TcpEvent) (hos : cfg.osAssignedPort ≠ 0) :
    (tcpLaunchRun cfg events).spawns =
      (if (tcpLaunchRun cfg events).listenFired then
        [(cfg.startScriptPath, ["--tcpClientPort", toString cfg.boundPort])]
      else []) ∧
    ((tcpLaunchRun cfg events).spawns ≠ [] →
      (tcpLaunchRun cfg events).listenFired = true) ∧
    (∀ p, cfg.requestedPort = some p → p ≠ 0 → cfg.boundPort = p) ∧
    (cfg.requestedPort = some 0 →
      cfg.boundPort = cfg.osAssignedPort ∧ cfg.boundPort ≠ 0) ∧
    (cfg.requestedPort = none →
      cfg.boundPort = cfg.osAssignedPort ∧ cfg.boundPort ≠ 0) := by
  rcases tcpLaunch_inv cfg events with ⟨_, _, h3⟩
  refine ⟨h3, ?_, ?_, ?_, ?_⟩
  · intro hne
    by_contra hnf
    rw [Bool.not_eq_true] at hnf
    rw [hnf] at h3
    simp only [if_neg Bool.false_ne_true] at h3
    exact hne h3
  · intro p hreq hp
    simp [TcpLaunchConfig.boundPort, hreq, hp]
  · intro hreq
    simp [TcpLaunchConfig.boundPort, hreq, hos]
  · intro hreq
    simp [TcpLaunchConfig.boundPort, hreq, hos]

theorem C4_witness :
    TcpLaunchConfig.boundPort
      { startScriptPath := "kotlin-language-server", requestedPort := some 0,
        osAssignedPort := 51234 } = 51234 ∧
    TcpLaunchConfig.boundPort
      { startScriptPath := "kotlin-language-server", requestedPort := some 0,
        osAssignedPort := 51234 } ≠ 0 :=
  (C4_spawn_after_listen_with_actual_port
    { startScriptPath := "kotlin-language-server", requestedPort := some 0,
      osAssignedPort := 51234 }
    [TcpEvent.listenReady] (by decide)).2.2.2.1 rfl

/-- Claim C8: if the listening socket of a `tcp_launch` invocation emits an
error while the promise is still pending (in particular before any
connection was accepted, e.g. the requested port is already in use), the
promise rejects with that error, and stays rejected whatever happens later:
it never resolves, and nothing in the closure retries. -/
theorem C8_tcp_launch_listener_error_rejects (cfg : TcpLaunchConfig)
    (pre post : List TcpEvent) (e : String)
    (hp : (tcpLaunchRun cfg pre).promise = .pending) :
    (tcpLaunchRun cfg (pre ++ TcpEvent.error e :: post)).promise = .rejected e := by
  have hrun : tcpLaunchRun cfg (pre ++ TcpEvent.error e :: post) =
      List.foldl (tcpLaunchStep cfg)
        (tcpLaunchStep cfg (tcpLaunchRun cfg pre) (.error e)) post := by
    simp [tcpLaunchRun, List.foldl_append]
  have hstep : (tcpLaunchStep cfg (tcpLaunchRun cfg pre) (.error e)).promise =
      .rejected e := by
    simp [tcpLaunchStep, hp, PromiseState.reject]
  rw [hrun, tcpLaunch_promise_stable _ _ _ (by rw [hstep]; simp), hstep]

theorem C8_witness :
    (tcpLaunchRun
      { startScriptPath := "kotlin-language-server", requestedPort := some 8080,
        osAssignedPort := 5007 }
      ([] ++ TcpEvent.error "EADDRINUSE" :: [TcpEvent.listenReady, TcpEvent.connection 3])).promise =
      .rejected "EADDRINUSE" :=
  C8_tcp_launch_listener_error_rejects
    { startScriptPath := "kotlin-language-server", requestedPort := some 8080,
      osAssignedPort := 5007 }
    [] [TcpEvent.listenReady, TcpEvent.connection 3] "EADDRINUSE" (by decide)

/-! ## TCP attach connector (languageSetup.ts lines 309-332, `tcp_attach`)

`tcp_attach` creates one long-lived `net.Server` and returns a channel
source.  Each invocation of the channel source runs, in order:
`server.removeAllListeners("connect")`; then registers
`server.once("connection", connection_listener)` where the listener arms
`socket.once("close", ...)` (which calls
`server.removeListener("connect", connection_listener)`) and resolves the
invocation's promise; the executor never calls `reject` (the parameter is
named `_reject`), and `server.listen(tcpPort)` installs no error handler.

Note the event names in the source: listeners are registered for the event
"connection" but removed for the event "connect".  The embedding keeps
event names as strings so that this distinction is preserved. -/

/-- A listener registered on the attach server: the event name it is
registered for and the invocation id whose `connection_listener` it is.
All registrations in the source go through `server.once`, so every listener
here is one-shot. -/
structure ServerListener where
  event : String
  id : Nat
deriving DecidableEq, Repr

/-- State of the attach connector: the server's listener list, the promise
of each channel-source invocation (keyed by invocation id), the armed
socket close handlers as (socket, invocation id) pairs, errors raised with
no handler attached, and the next fresh invocation id. -/
structure AttachState where
  serverListeners : List ServerListener
  promises : List (Nat × PromiseState StreamInfo)
  closeHandlers : List (Nat × Nat)
  uncaughtErrors : List String
  nextId : Nat
deriving DecidableEq, Repr

def AttachState.init : AttachState :=
  { serverListeners := [], promises := [], closeHandlers := [],
    uncaughtErrors := [], nextId := 0 }

/-- Operations on the attach connector: a channel-source invocation (the
protocol client (re)starting), an inbound connection on the listening
socket, a close of one of the accepted sockets, and a bind error on the
listening socket (for which the source installs no handler). -/
inductive AttachOp where
  | invoke
  | connection (sock : Nat)
  | socketClose (sock : Nat)
  | bindError (e : String)
deriving DecidableEq, Repr

/-- Resolve the promise of invocation `k` with value `v` (settle-once). -/
def resolveInvocation (ps : List (Nat × PromiseState StreamInfo)) (k : Nat)
    (v : StreamInfo) : List (Nat × PromiseState StreamInfo) :=
  ps.map (fun p => if p.1 == k then (p.1, p.2.resolve v) else p)

/-- Models `server.removeListener(ev, fn)`: removes at most one matching
registration. -/
def removeOneListener (ls : List ServerListener) (ev : String) (k : Nat) :
    List ServerListener :=
  match ls with
  | [] => []
  | l :: rest =>
    if l.event == ev && l.id == k then rest else l :: removeOneListener rest ev k

/-- One step of the attach connector.
* `invoke`: `removeAllListeners("connect")`, then `once("connection", fn)`
  for a fresh invocation id with a fresh pending promise.
* `connection sock`: the server emits "connection"; every listener
  registered for "connection" fires (each is a `once`, so it is removed),
  arms a close handler for `sock`, and resolves its invocation's promise
  with the socket as reader and writer.
* `socketClose sock`: the armed close handlers for `sock` fire, each
  calling `removeListener("connect", fn)` on the server.
* `bindError e`: the server has no "error" listener, so the error touches
  no promise and is recorded as an uncaught error. -/
def attachStep (st : AttachState) : AttachOp → AttachState
  | .invoke =>
    let k := st.nextId
    { st with
      serverListeners :=
        (st.serverListeners.filter (fun l => l.event != "connect")) ++
          [{ event := "connection", id := k }],
      promises := st.promises ++ [(k, .pending)],
      nextId := k + 1 }
  | .connection sock =>
    let fired := st.serverListeners.filter (fun l => l.event == "connection")
    { st with
      serverListeners := st.serverListeners.filter (fun l => l.event != "connection"),
      closeHandlers := st.closeHandlers ++ fired.map (fun l => (sock, l.id)),
      promises := fired.foldl
        (fun ps l => resolveInvocation ps l.id { reader := sock, writer := sock })
        st.promises }
  | .socketClose sock =>
    let hs := st.closeHandlers.filter (fun h => h.1 == sock)
    { st with
      closeHandlers := st.closeHandlers.filter (fun h => h.1 != sock),
      serverListeners :=
        hs.foldl (fun ls h => removeOneListener ls "connect" h.2) st.serverListeners }
  | .bindError e => { st with uncaughtErrors := st.uncaughtErrors ++ [e] }

/-- Run the attach connector from its initial state. -/
def attachRun (ops : List AttachOp) : AttachState :=
  ops.foldl attachStep .init

/-- Claim C2: the claim states that at most one pending connection-listener
registration exists at any time — invocation N's listener is removed before
invocation N+1 registers its own.  In the source the defensive removal
targets the event "connect" while registration is on "connection", so it
removes nothing: after two channel-source invocations with no connection in
between, TWO pending "connection" listeners are registered, and the next
single inbound connection resolves BOTH invocations' promises with the same
socket — exactly the stale-future resolution the claim rules out. -/
theorem C2_stale_attach_listener_survives_and_double_resolves :
    ((attachRun [.invoke, .invoke]).serverListeners.filter
      (fun l => l.event == "connection")).length = 2 ∧
    (attachRun [.invoke, .invoke, .connection 5]).promises =
      [(0, .resolved { reader := 5, writer := 5 }),
       (1, .resolved { reader := 5, writer := 5 })] := by
  decide

theorem PromiseState.resolve_eq_rejected (p : PromiseState α) (v : α) (e : String)
    (h : p.resolve v = .rejected e) : p = .rejected e := by
  cases p <;> simp_all [PromiseState.resolve]

theorem resolveInvocation_noRejection (ps : List (Nat × PromiseState StreamInfo))
    (k : Nat) (v : StreamInfo)
    (h : ∀ p ∈ ps, ∀ e, p.2 ≠ PromiseState.rejected e) :
    ∀ p ∈ resolveInvocation ps k v, ∀ e, p.2 ≠ PromiseState.rejected e := by
  intro p hp e
  rcases List.mem_map.mp hp with ⟨q, hq, rfl⟩
  split
  · intro hcontra
    exact h q hq e (PromiseState.resolve_eq_rejected _ _ _ hcontra)
  · exact h q hq e

theorem foldl_resolveInvocation_noRejection (ls : List ServerListener) (sock : Nat)
    (ps : List (Nat × PromiseState StreamInfo))
    (h : ∀ p ∈ ps, ∀ e, p.2 ≠ PromiseState.rejected e) :
    ∀ p ∈ ls.foldl
      (fun acc l => resolveInvocation acc l.id { reader := sock, writer := sock }) ps,
      ∀ e, p.2 ≠ PromiseState.rejected e := by
  induction ls generalizing ps with
  | nil => exact h
  | cons l rest ih => exact ih _ (resolveInvocation_noRejection _ _ _ h)

/-- Claim C10: over every sequence of attach-connector operations —
including bind errors on the listening socket — no invocation's promise is
ever rejected: the executor never calls reject and no error handler exists,
so every promise only ever resolves or stays pending forever. -/
theorem C10_attach_promise_never_rejects (ops : List AttachOp) :
    ∀ p ∈ (attachRun ops).promises, ∀ e, p.2 ≠ PromiseState.rejected e := by
  have main : ∀ (l : List AttachOp) (st : AttachState),
      (∀ p ∈ st.promises, ∀ e, p.2 ≠ PromiseState.rejected e) →
      ∀ p ∈ (l.foldl attachStep st).promises, ∀ e, p.2 ≠ PromiseState.rejected e := by
    intro l
    induction l with
    | nil => intro st h; exact h
    | cons op rest ih =>
      intro st h
      rw [List.foldl_cons]
      apply ih
      cases op with
      | invoke =>
        intro p hp e
        rcases List.mem_append.mp hp with h1 | h1
        · exact h p h1 e
        · simp only [List.mem_singleton] at h1
          subst h1
          simp
      | connection sock => exact foldl_resolveInvocation_noRejection _ _ _ h
      | socketClose sock => exact h
      | bindError e2 => exact h
  exact main ops .init (by simp [AttachState.init])

theorem C10_witness :
    ((0, PromiseState.resolved { reader := 3, writer := 3 }) :
      Nat × PromiseState StreamInfo).2 ≠ PromiseState.rejected "EADDRINUSE" :=
  C10_attach_promise_never_rejects
    [.invoke, .bindError "EADDRINUSE", .connection 3]
    (0, .resolved { reader := 3, writer := 3 }) (by decide) "EADDRINUSE"

/-! ## Stdio connector and process environments
(languageSetup.ts lines 98-117 and 334-347) -/

/-- A JavaScript object used as an environment mapping: string keys to
string values, absent keys being `undefined`. -/
def JsEnv : Type := String → Option String

/-- Property assignment `env[k] = v`. -/
def JsEnv.set (env : JsEnv) (k v : String) : JsEnv :=
  fun x => if x = k then some v else env x

theorem JsEnv.get_set_same (env : JsEnv) (k v : String) : env.set k v k = some v := by
  simp [JsEnv.set]

theorem JsEnv.get_set_other (env : JsEnv) (k v x : String) (h : x ≠ k) :
    env.set k v x = env x := by
  simp [JsEnv.set, h]

/-- The `TServerDebugConfig` record from languageSetup.ts. -/
structure TServerDebugConfig where
  is_enabled : Bool
  auto_suspend : Bool
  port : Nat
deriving DecidableEq, Repr

/-- The JDWP option string built by `stdio_launch` when debug attach is
enabled. -/
def debugOptsString (c : TServerDebugConfig) : String :=
  "-Xdebug -agentlib:jdwp=transport=dt_socket,address=" ++ toString c.port ++
    ",server=y,quiet=y,suspend=" ++ (if c.auto_suspend then "y" else "n")

/-- The executable `ServerOptions` shape produced by `stdio_launch`:
command, arguments, working directory and environment. -/
structure ExecutableServerOptions where
  command : String
  args : List String
  cwd : Option String
  env : JsEnv

/-- Function `stdio_launch` (lines 334-347): injects `KOTLIN_LANGUAGE_SERVER_OPTS`
into the environment when debug attach is enabled, and returns the
command/args/cwd/env descriptor.  `workspaceRoot` stands for
`vscode.workspace.workspaceFolders?.[0]?.uri?.fsPath`. -/
def stdio_launch (startPath : String) (env : JsEnv)
    (debugConfiguration : TServerDebugConfig) (workspaceRoot : Option String) :
    ExecutableServerOptions :=
  { command := startPath, args := [], cwd := workspaceRoot,
    env :=
      if debugConfiguration.is_enabled then
        env.set "KOTLIN_LANGUAGE_SERVER_OPTS" (debugOptsString debugConfiguration)
      else env }

/-- The environment built in the stdio branch of `activateLanguageServer`
(lines 107-115): a copy of `process.env`, then `JAVA_HOME` when
`javaInstallation.javaHome` is truthy and `JAVA_OPTS` when `javaOpts` is
truthy (a JavaScript string is truthy when present and nonempty). -/
def stdioBaseEnv (processEnv : JsEnv) (javaHome javaOpts : Option String) : JsEnv :=
  let env1 := match javaHome with
    | some h => if h = "" then processEnv else processEnv.set "JAVA_HOME" h
    | none => processEnv
  match javaOpts with
  | some o => if o = "" then env1 else env1.set "JAVA_OPTS" o
  | none => env1

/-- The environment of the spawned server process, per transport mode:
the stdio branch spawns with the augmented environment produced by
`stdio_launch`; the tcp and tcp-random branches call
`child_process.spawn(startScriptPath, args)` with no options object, so the
child inherits `process.env` unmodified; the tcp-attach branch spawns no
process at all. -/
def spawnedServerEnv (transportLayer : String) (processEnv : JsEnv)
    (javaHome javaOpts : Option String) (debugConfig : TServerDebugConfig)
    (startPath : String) (workspaceRoot : Option String) : Option JsEnv :=
  if transportLayer = "stdio" then
    some (stdio_launch startPath (stdioBaseEnv processEnv javaHome javaOpts)
      debugConfig workspaceRoot).env
  else if transportLayer = "tcp" ∨ transportLayer = "tcp-random" then
    some processEnv
  else
    none

/-- Claim C7: when debug attach is enabled, the environment produced by
`stdio_launch` maps `KOTLIN_LANGUAGE_SERVER_OPTS` to the JDWP string, which
contains `suspend=y` when `auto_suspend` is set and `suspend=n` otherwise,
and contains `address=<configured port>`; when debug attach is disabled the
environment is returned untouched. -/
theorem C7_stdio_debug_attach_env (startPath : String) (env : JsEnv)
    (c : TServerDebugConfig) (workspaceRoot : Option String) :
    (c.is_enabled = true →
      (stdio_launch startPath env c workspaceRoot).env "KOTLIN_LANGUAGE_SERVER_OPTS" =
        some (debugOptsString c) ∧
      (∃ a b, debugOptsString c =
        a ++ (if c.auto_suspend then "suspend=y" else "suspend=n") ++ b) ∧
      (∃ a b, debugOptsString c = a ++ ("address=" ++ toString c.port) ++ b)) ∧
    (c.is_enabled = false →
      (stdio_launch startPath env c workspaceRoot).env = env) := by
  constructor
  · intro he
    refine ⟨?_, ?_, ?_⟩
    · simp [stdio_launch, he, JsEnv.get_set_same]
    · cases hs : c.auto_suspend with
      | true =>
        refine ⟨"-Xdebug -agentlib:jdwp=transport=dt_socket,address=" ++
          toString c.port ++ ",server=y,quiet=y,", "", ?_⟩
        simp [debugOptsString, hs, String.append_assoc]
      | false =>
        refine ⟨"-Xdebug -agentlib:jdwp=transport=dt_socket,address=" ++
          toString c.port ++ ",server=y,quiet=y,", "", ?_⟩
        simp [debugOptsString, hs, String.append_assoc]
    · refine ⟨"-Xdebug -agentlib:jdwp=transport=dt_socket,",
        ",server=y,quiet=y,suspend=" ++ (if c.auto_suspend then "y" else "n"), ?_⟩
      have h : ("-Xdebug -agentlib:jdwp=transport=dt_socket,address=" : String) =
          "-Xdebug -agentlib:jdwp=transport=dt_socket," ++ "address=" := rfl
      rw [debugOptsString, h]
      simp only [String.append_assoc]
  · intro he
    simp [stdio_launch, he]

theorem C7_witness :
    (stdio_launch "kotlin-language-server" (fun _ => none)
      { is_enabled := true, auto_suspend := true, port := 5005 } none).env
      "KOTLIN_LANGUAGE_SERVER_OPTS" =
      some (debugOptsString { is_enabled := true, auto_suspend := true, port := 5005 }) :=
  ((C7_stdio_debug_attach_env "kotlin-language-server" (fun _ => none)
    { is_enabled := true, auto_suspend := true, port := 5005 } none).1 rfl).1

/-- Claim C6: the claim states that in EVERY transport mode the spawned
server's environment contains `JAVA_HOME` when a Java installation was
resolved, `JAVA_OPTS` when configured, and `KOTLIN_LANGUAGE_SERVER_OPTS`
exactly when debug attach is enabled.  In the tcp branch the source calls
`child_process.spawn(startScriptPath, args)` with no options object, so the
child inherits the extension's own `process.env` with nothing added: with
an empty `process.env`, a resolved Java home, configured Java options and
debug attach enabled, the spawned process's environment contains none of
the three variables. -/
theorem C6_counterexample_tcp_env_not_augmented :
    (spawnedServerEnv "tcp" (fun _ => none) (some "/usr/lib/jvm/java-17")
      (some "-Xmx2g") { is_enabled := true, auto_suspend := false, port := 5005 }
      "kotlin-language-server" none).map
      (fun env => (env "JAVA_HOME", env "JAVA_OPTS", env "KOTLIN_LANGUAGE_SERVER_OPTS")) =
      some (none, none, none) := rfl

theorem stdioBaseEnv_JAVA_HOME (processEnv : JsEnv) (h : String)
    (javaOpts : Option String) (hne : h ≠ "") :
    stdioBaseEnv processEnv (some h) javaOpts "JAVA_HOME" = some h := by
  cases javaOpts with
  | none => simp [stdioBaseEnv, hne, JsEnv.set]
  | some o => by_cases ho : o = "" <;> simp [stdioBaseEnv, hne, ho, JsEnv.set]

theorem stdioBaseEnv_JAVA_OPTS (processEnv : JsEnv) (javaHome : Option String)
    (o : String) (hne : o ≠ "") :
    stdioBaseEnv processEnv javaHome (some o) "JAVA_OPTS" = some o := by
  cases javaHome with
  | none => simp [stdioBaseEnv, hne, JsEnv.set]
  | some hs => by_cases hhs : hs = "" <;> simp [stdioBaseEnv, hne, hhs, JsEnv.set]

theorem stdioBaseEnv_untouched_key (processEnv : JsEnv)
    (javaHome javaOpts : Option String) (k : String)
    (hk1 : k ≠ "JAVA_HOME") (hk2 : k ≠ "JAVA_OPTS") :
    stdioBaseEnv processEnv javaHome javaOpts k = processEnv k := by
  cases javaHome with
  | none =>
    cases javaOpts with
    | none => rfl
    | some o => by_cases ho : o = "" <;> simp [stdioBaseEnv, ho, JsEnv.set, hk2]
  | some hs =>
    cases javaOpts with
    | none => by_cases hhs : hs = "" <;> simp [stdioBaseEnv, hhs, JsEnv.set, hk1]
    | some o =>
      by_cases hhs : hs = "" <;> by_cases ho : o = "" <;>
        simp [stdioBaseEnv, hhs, ho, JsEnv.set, hk1, hk2]

/-- Claim C6 (amended): only the stdio branch augments the environment — it
adds `JAVA_HOME` when a nonempty Java home was resolved, `JAVA_OPTS` when
nonempty Java options are configured, and `KOTLIN_LANGUAGE_SERVER_OPTS`
exactly when debug attach is enabled (assuming the base `process.env` does
not already carry that variable); in tcp and tcp-random modes the spawned
process inherits `process.env` unmodified, and in tcp-attach mode no
process is spawned at all. -/
theorem C6_amended_spawned_env_by_mode (processEnv : JsEnv)
    (javaHome javaOpts : Option String) (debugConfig : TServerDebugConfig)
    (startPath : String) (workspaceRoot : Option String)
    (hK : processEnv "KOTLIN_LANGUAGE_SERVER_OPTS" = none) :
    (∀ h, javaHome = some h → h ≠ "" →
      (spawnedServerEnv "stdio" processEnv javaHome javaOpts debugConfig startPath
        workspaceRoot).map (fun env => env "JAVA_HOME") = some (some h)) ∧
    (∀ o, javaOpts = some o → o ≠ "" →
      (spawnedServerEnv "stdio" processEnv javaHome javaOpts debugConfig startPath
        workspaceRoot).map (fun env => env "JAVA_OPTS") = some (some o)) ∧
    ((spawnedServerEnv "stdio" processEnv javaHome javaOpts debugConfig startPath
        workspaceRoot).map (fun env => env "KOTLIN_LANGUAGE_SERVER_OPTS") =
      some (if debugConfig.is_enabled then some (debugOptsString debugConfig) else none)) ∧
    spawnedServerEnv "tcp" processEnv javaHome javaOpts debugConfig startPath
      workspaceRoot = some processEnv ∧
    spawnedServerEnv "tcp-random" processEnv javaHome javaOpts debugConfig startPath
      workspaceRoot = some processEnv ∧
    spawnedServerEnv "tcp-attach" processEnv javaHome javaOpts debugConfig startPath
      workspaceRoot = none := by
  have hstdio : spawnedServerEnv "stdio" processEnv javaHome javaOpts debugConfig
      startPath workspaceRoot =
      some (stdio_launch startPath (stdioBaseEnv processEnv javaHome javaOpts)
        debugConfig workspaceRoot).env := by
    simp [spawnedServerEnv]
  have hlaunch : ∀ k, k ≠ "KOTLIN_LANGUAGE_SERVER_OPTS" →
      (stdio_launch startPath (stdioBaseEnv processEnv javaHome javaOpts)
        debugConfig workspaceRoot).env k =
      stdioBaseEnv processEnv javaHome javaOpts k := by
    intro k hk
    simp only [stdio_launch]
    split
    · exact JsEnv.get_set_other _ _ _ _ hk
    · rfl
  refine ⟨?_, ?_, ?_, ?_, ?_, ?_⟩
  · intro h hj hne
    subst hj
    rw [hstdio, Option.map_some', hlaunch _ (by decide),
      stdioBaseEnv_JAVA_HOME _ _ _ hne]
  · intro o hj hne
    subst hj
    rw [hstdio, Option.map_some', hlaunch _ (by decide),
      stdioBaseEnv_JAVA_OPTS _ _ _ hne]
  · rw [hstdio, Option.map_some']
    cases he : debugConfig.is_enabled with
    | true => simp [stdio_launch, he, JsEnv.get_set_same]
    | false =>
      simp only [stdio_launch, he, Bool.false_eq_true, if_false]
      rw [stdioBaseEnv_untouched_key _ _ _ _ (by decide) (by decide), hK]
  · simp [spawnedServerEnv]
  · simp [spawnedServerEnv]
  · simp [spawnedServerEnv]

theorem C6_witness :
    (spawnedServerEnv "stdio" (fun _ => none) (some "/usr/lib/jvm/java-17") none
      { is_enabled := false, auto_suspend := false, port := 0 }
      "kotlin-language-server" none).map (fun env => env "JAVA_HOME") =
      some (some "/usr/lib/jvm/java-17") :=
  (C6_amended_spawned_env_by_mode (fun _ => none) (some "/usr/lib/jvm/java-17") none
    { is_enabled := false, auto_suspend := false, port := 0 }
    "kotlin-language-server" none rfl).1 "/usr/lib/jvm/java-17" rfl (by decide)

/-! ## Command wiring and activation prelude
(languageSetup.ts lines 37-62 and 145-224) -/

/-- JavaScript string truthiness: a string is truthy when it is defined and
nonempty. -/
def strTruthy : Option String → Bool
  | some s => !(s == "")
  | none => false

/-- The `startScriptPath` computation (line 62): the custom path when truthy, otherwise the
managed install's start script.  `correctScriptName` on a unixoid OS is the
identity, so the managed script is named "kotlin-language-server". -/
def startScriptPath (customPath : Option String) (langServerInstallDir : String) :
    String :=
  if strTruthy customPath then customPath.getD ""
  else langServerInstallDir ++ "/server/bin/kotlin-language-server"

/-- The commands registered by `activateLanguageServer` after the client is
started, in registration order (lines 154-224): `kotlin.overrideMember`
(which consumes the override-member protocol extension) is registered
unconditionally; the run/debug block — `kotlin.resolveMain`, which consumes
the main-class protocol extension, plus `kotlin.runMain` and
`kotlin.debugMain` — is registered only when `debugAdapter.enabled` is set
and the start script path ends with "kotlin-language-server". -/
def registeredCommands (scriptPath : String) (debugAdapterEnabled : Bool) :
    List String :=
  ["kotlin.overrideMember"] ++
    (if debugAdapterEnabled && scriptPath.endsWith "kotlin-language-server" then
      ["kotlin.resolveMain", "kotlin.runMain", "kotlin.debugMain"]
    else [])

/-- Claim C5: the claim states that with a custom `languageServer.path`
neither custom protocol extension is consumed.  With the custom path
"/opt/custom-ls/start.sh" (and the debug adapter disabled), the
`kotlin.overrideMember` command — which sends the override-member request —
is registered anyway: its registration is unconditional in the source. -/
theorem C5_counterexample_override_member_with_custom_path :
    startScriptPath (some "/opt/custom-ls/start.sh") "/globalStorage" =
      "/opt/custom-ls/start.sh" ∧
    "kotlin.overrideMember" ∈
      registeredCommands (startScriptPath (some "/opt/custom-ls/start.sh")
        "/globalStorage") false := by
  decide

/-- Claim C5 (amended): the override-member command is registered
unconditionally, including when a custom server path is configured; only
the main-class resolution command is guarded, and the guard is
`debugAdapter.enabled` together with the start script path ending in
"kotlin-language-server" — which holds for the managed binary on a unixoid
OS and may also hold for a custom path with that suffix. -/
theorem C5_amended_extension_wiring (scriptPath : String)
    (debugAdapterEnabled : Bool) :
    "kotlin.overrideMember" ∈ registeredCommands scriptPath debugAdapterEnabled ∧
    ("kotlin.resolveMain" ∈ registeredCommands scriptPath debugAdapterEnabled ↔
      debugAdapterEnabled = true ∧
        scriptPath.endsWith "kotlin-language-server" = true) := by
  cases hd : debugAdapterEnabled <;>
    cases hsfx : scriptPath.endsWith "kotlin-language-server" <;>
      simp [registeredCommands, hd, hsfx]

/-- Observable steps of the activation prelude. -/
inductive ActivationStep where
  | downloadAttempt
  | consoleError (e : String)
  | showWarningMessage (msg : String)
  | clientStart
deriving DecidableEq, Repr

/-- The download prelude of `activateLanguageServer` (lines 42-55), with
the rest of the activation abstracted as starting the language client: when
no custom path is configured the downloader runs, and on download failure
the catch block logs the error, shows a warning message, and returns
`undefined` — a normal return, not a propagated exception.  The result is
the list of observable steps together with `some ()` when activation
proceeded to start a client and `none` when it aborted. -/
def activationPrelude (customPath : Option String)
    (downloadOutcome : Except String Unit) : List ActivationStep × Option Unit :=
  if strTruthy customPath then ([.clientStart], some ())
  else
    match downloadOutcome with
    | .error e =>
      ([.downloadAttempt, .consoleError e,
        .showWarningMessage ("Could not update/download Kotlin Language Server: " ++ e)],
       none)
    | .ok _ => ([.downloadAttempt, .clientStart], some ())

/-- Claim C9: when no custom server path is configured and the artifact
download fails, activation aborts returning `undefined` without ever
starting a language client, and exactly one warning message is surfaced to
the user; the failure is swallowed by the catch block (a normal return
rather than a propagated exception), so the rest of the extension keeps
running. -/
theorem C9_download_failure_aborts_with_warning (e : String) :
    (activationPrelude none (.error e)).2 = none ∧
    ActivationStep.clientStart ∉ (activationPrelude none (.error e)).1 ∧
    ((activationPrelude none (.error e)).1.filter
      (fun s => match s with | .showWarningMessage _ => true | _ => false)).length = 1 ∧
    (activationPrelude none (.error e)).1 =
      [.downloadAttempt, .consoleError e,
       .showWarningMessage ("Could not update/download Kotlin Language Server: " ++ e)] := by
  refine ⟨rfl, ?_, rfl, rfl⟩
  simp [activationPrelude, strTruthy]

/-- Claim C1: the claim states that a configured value equal to one of the
four enum members "stdio", "tcp", "tcp-random", "tcp-attach" is returned
unchanged with no configuration write. The code instead tests
`TransportLayer[value]`, and a TypeScript string enum has no reverse
mapping, so "tcp" — a documented enum value — is classified as unknown,
replaced by "stdio", and a configuration write is performed. This theorem
evaluates the embedded selector at the failing input "tcp". -/
theorem C1_enum_value_tcp_is_rewritten_to_stdio :
    selectTransport (some "tcp") = ("stdio", [("languageServer.transport", "stdio")]) := by
  decide

end VscodeKotlin
